import Mathlib

/-!
Formal model of the browser realm bootstrap (src/browser-realm.ts) of the
secure-javascript-environment repository: realm provisioning, descriptor
filtering, reflective global re-exposure, membrane registration order, and
the sanitizing evaluator returned by createSecureEnvironment.

The membrane engine (SecureEnvironment from ./environment) and the reflective
primitives (./shared) are not part of the analyzed source tree; they are
modelled from the specification contracts in sections 4.3 and 6 of the spec.
Everything else is a direct translation of browser-realm.ts.
-/

set_option autoImplicit false

namespace SecureJS

/-- JavaScript values, with object identity modelled by a numeric id.
Primitives other than strings are not needed by the analyzed code paths. -/
inductive JSVal where
  | undef
  | null
  | obj (id : Nat)
  | str (s : String)
deriving DecidableEq, Repr

/-- A property descriptor. Its internal fields are irrelevant to the claims;
only identity and the name it is filed under matter, so it wraps a value. -/
structure Descriptor where
  value : JSVal
deriving DecidableEq, Repr

/-- A descriptor map: an ordered association of property names to
descriptors, as produced by getOwnPropertyDescriptors. -/
abbrev DescMap := List (String × Descriptor)

/-- Name lookup in a descriptor map (first match wins). -/
def lookupDesc : DescMap → String → Option Descriptor
  | [], _ => none
  | (k2, d) :: rest, k => if k2 = k then some d else lookupDesc rest k

/-- The JavaScript delete operator on a descriptor map: removes every entry
filed under the given name. -/
def deleteDesc : DescMap → String → DescMap
  | [], _ => []
  | (k2, d) :: rest, k =>
    if k2 = k then deleteDesc rest k else (k2, d) :: deleteDesc rest k

/-- One membrane registration: the triple submitted to remap.
The field names follow the contract remap(secureNode, rawNode, descriptors);
a call site that passes its arguments in another order is visible here as a
registration whose secureNode holds a raw-realm value. -/
structure Registration where
  secureNode : JSVal
  rawNode : JSVal
  descriptors : DescMap
deriving DecidableEq, Repr

/-- Modelled from the spec: the membrane engine (SecureEnvironment from
./environment, which is not part of the analyzed source). Per spec sections
4.3 and 6 it is instantiated with the two global objects and an optional
distortion map, and it accumulates remap registrations in order. -/
structure SecureEnvironment where
  rawGlobalThis : JSVal
  secureGlobalThis : JSVal
  distortionMap : List (JSVal × JSVal)
  registrations : List Registration
deriving DecidableEq, Repr

/-- Modelled from the spec: remap(secureNode, rawNode, descriptors) registers
a bidirectional correspondence; once submitted the pair is permanently
correlated. -/
def SecureEnvironment.remap (env : SecureEnvironment)
    (secureNode rawNode : JSVal) (descriptors : DescMap) : SecureEnvironment :=
  { env with registrations := env.registrations ++ [⟨secureNode, rawNode, descriptors⟩] }

/-- Modelled from the spec: getRawRef resolves a secure-side value to its
registered raw counterpart, returning undefined if no correspondence is
registered. -/
def SecureEnvironment.getRawRef (env : SecureEnvironment) (v : JSVal) : JSVal :=
  match env.registrations.find? (fun r => r.secureNode == v) with
  | some r => r.rawNode
  | none => JSVal.undef

/-- Modelled from the spec: getSecureValue resolves a raw-side value to its
registered secure counterpart, returning undefined if no correspondence is
registered. -/
def SecureEnvironment.getSecureValue (env : SecureEnvironment) (v : JSVal) : JSVal :=
  match env.registrations.find? (fun r => r.rawNode == v) with
  | some r => r.secureNode
  | none => JSVal.undef

/-- The live state of the trusted (raw) realm, read through the reflective
primitives: the window and document globals, prototype lookup
(ReflectGetPrototypeOf), own-descriptor capture (getOwnPropertyDescriptors),
and property reads such as rawWindow[key]. -/
structure World where
  window : JSVal
  document : JSVal
  protoOf : JSVal → JSVal
  ownDescriptors : JSVal → DescMap
  getProp : JSVal → String → JSVal

/-- The module-level constants of browser-realm.ts (lines 14 to 18):
references captured once at module load time. -/
structure ModuleConstants where
  rawWindow : JSVal
  rawDocument : JSVal
  rawWindowProto : JSVal
  rawWindowPropertiesProto : JSVal
  rawEventTargetProto : JSVal
deriving DecidableEq, Repr

/-- Module load of browser-realm.ts (lines 14 to 18): captures the raw
window, the raw document, and the three-level prototype spine
window to Window to WindowProperties to EventTarget from the live world. -/
def moduleLoad (w : World) : ModuleConstants :=
  let rawWindow := w.window
  let rawDocument := w.document
  let rawWindowProto := w.protoOf rawWindow
  let rawWindowPropertiesProto := w.protoOf rawWindowProto
  let rawEventTargetProto := w.protoOf rawWindowPropertiesProto
  ⟨rawWindow, rawDocument, rawWindowProto, rawWindowPropertiesProto, rawEventTargetProto⟩

/-- The freshly provisioned secure realm: the iframe contentWindow with its
document, prototype lookup, property reads (secureWindow[key]), and the
observed message and constructor fields of values thrown inside it.
messageOf and ctorOf model the reads e.message and e.constructor, which in
JavaScript succeed on every value except null and undefined. -/
structure SecureRealm where
  secureWindow : JSVal
  secureDocument : JSVal
  protoOf : JSVal → JSVal
  getProp : String → JSVal
  messageOf : JSVal → JSVal
  ctorOf : JSVal → JSVal

/-- Observable construction-time events of createSecureEnvironment, in
program order: the forced secureIndirectEval of a trivial expression
(line 33), the container removal iframe.remove() (line 38), each remap call
with the arguments it received, and the ReflectSetPrototypeOf call
(line 66). -/
inductive Event where
  | forceEval
  | detach
  | remap (secureArg rawArg : JSVal) (descriptors : DescMap)
  | setProto (target proto : JSVal)
deriving DecidableEq, Repr

/-- The four property names deleted from the captured raw global descriptor
set (browser-realm.ts lines 53 to 56). -/
def denyList : List String := ["location", "EventTarget", "document", "window"]

/-- One iteration of the reflective-names loop (browser-realm.ts lines 69 to
75): when rawWindow[key] and secureWindow[key] are both defined, the key is
deleted from the filtered global descriptor set and a remap call is made.
The remap arguments are passed exactly as the source writes them on line 73:
env.remap(rawWindow[key], secureWindow[key],
getOwnPropertyDescriptors(rawWindow[key])), that is, the raw value in the
first (secureNode) slot. -/
def reflectiveStep (w : World) (sr : SecureRealm) (mc : ModuleConstants) :
    SecureEnvironment × DescMap × List Event → String →
    SecureEnvironment × DescMap × List Event
  | (env, descs, tr), key =>
    let rawVal := w.getProp mc.rawWindow key
    let secureVal := sr.getProp key
    if rawVal ≠ JSVal.undef ∧ secureVal ≠ JSVal.undef then
      let descs2 := deleteDesc descs key
      let env2 := env.remap rawVal secureVal (w.ownDescriptors rawVal)
      (env2, descs2, tr ++ [Event.remap rawVal secureVal (w.ownDescriptors rawVal)])
    else
      (env, descs, tr)

/-- The result of running createSecureEnvironment: the membrane environment
the returned evaluator closes over, and the ordered trace of construction
events. -/
structure BuildResult where
  env : SecureEnvironment
  trace : List Event
deriving DecidableEq, Repr

/-- Translation of createSecureEnvironment (browser-realm.ts lines 20 to 81).
reflectiveNames stands for ReflectiveDOMObjectNames, the fixed ordered name
list imported from ./shared (modelled from the spec as an abstract ordered
list of global identifiers, since ./shared is not part of the analyzed
source). The provisioning steps (lines 22 to 38) are recorded as the
forceEval and detach events; everything after the provisioning follows the
source line by line. -/
def createSecureEnvironment (reflectiveNames : List String)
    (mc : ModuleConstants) (w : World) (sr : SecureRealm)
    (distortionMap : List (JSVal × JSVal)) : BuildResult :=
  -- lines 22 to 38: provision the iframe, force-evaluate, detach
  let provisioning : List Event := [Event.forceEval, Event.detach]
  -- lines 41 to 44: walk the secure prototype spine
  let secureDocument := sr.secureDocument
  let secureWindowProto := sr.protoOf sr.secureWindow
  let secureWindowPropertiesProto := sr.protoOf secureWindowProto
  let secureEventTargetProto := sr.protoOf secureWindowPropertiesProto
  -- lines 46 to 50: capture raw-side descriptors and the document prototype
  let rawDocumentProto := w.protoOf mc.rawDocument
  let rawGlobalThisDescriptors := w.ownDescriptors mc.rawWindow
  let rawWindowProtoDescriptors := w.ownDescriptors mc.rawWindowProto
  let rawWindowPropertiesProtoDescriptors := w.ownDescriptors mc.rawWindowPropertiesProto
  let rawEventTargetProtoDescriptors := w.ownDescriptors mc.rawEventTargetProto
  -- lines 53 to 56: delete the problematic descriptors
  let rawGlobalThisDescriptors := deleteDesc rawGlobalThisDescriptors "location"
  let rawGlobalThisDescriptors := deleteDesc rawGlobalThisDescriptors "EventTarget"
  let rawGlobalThisDescriptors := deleteDesc rawGlobalThisDescriptors "document"
  let rawGlobalThisDescriptors := deleteDesc rawGlobalThisDescriptors "window"
  -- line 58: instantiate the membrane
  let env : SecureEnvironment := ⟨mc.rawWindow, sr.secureWindow, distortionMap, []⟩
  -- line 65: document pair with an empty descriptor set
  let env := env.remap secureDocument mc.rawDocument []
  -- line 66: fix the document prototype to the membrane-wrapped counterpart
  let docProto := env.getSecureValue rawDocumentProto
  let tr1 := provisioning ++
    [Event.remap secureDocument mc.rawDocument [],
     Event.setProto secureDocument docProto]
  -- lines 69 to 75: reflective global names loop
  let st := reflectiveNames.foldl (reflectiveStep w sr mc) (env, rawGlobalThisDescriptors, [])
  let env := st.1
  let rawGlobalThisDescriptors := st.2.1
  let reflTrace := st.2.2
  -- lines 78 to 81: spine remaps, most deeply nested first, global last
  let env := env.remap secureEventTargetProto mc.rawEventTargetProto rawEventTargetProtoDescriptors
  let env := env.remap secureWindowPropertiesProto mc.rawWindowPropertiesProto rawWindowPropertiesProtoDescriptors
  let env := env.remap secureWindowProto mc.rawWindowProto rawWindowProtoDescriptors
  let env := env.remap sr.secureWindow mc.rawWindow rawGlobalThisDescriptors
  { env := env,
    trace := tr1 ++ reflTrace ++
      [Event.remap secureEventTargetProto mc.rawEventTargetProto rawEventTargetProtoDescriptors,
       Event.remap secureWindowPropertiesProto mc.rawWindowPropertiesProto rawWindowPropertiesProtoDescriptors,
       Event.remap secureWindowProto mc.rawWindowProto rawWindowProtoDescriptors,
       Event.remap sr.secureWindow mc.rawWindow rawGlobalThisDescriptors] }

/-- Raw-realm error objects observable by a caller of the evaluator:
an error built by the reflective construct from a resolved constructor and a
message, a generic error built by ErrorCreate, or the TypeError raised by
the evaluator code itself when destructuring a null or undefined thrown
value (browser-realm.ts line 92, which sits outside the inner try). -/
inductive RawError where
  | constructed (rawCtor : JSVal) (message : JSVal)
  | generic (message : JSVal)
  | hostTypeError
deriving DecidableEq, Repr

/-- Modelled from the spec: the reflective construct-with-arguments primitive
from ./shared (not part of the analyzed source). Construction succeeds when
the callee is an object (a constructor) and throws otherwise, in particular
when the callee is the undefined returned by a failed getRawRef lookup. -/
def construct (f : JSVal) (message : JSVal) : Except Unit RawError :=
  match f with
  | JSVal.obj id => Except.ok (RawError.constructed (JSVal.obj id) message)
  | _ => Except.error ()

/-- Modelled from the spec: ErrorCreate from ./shared (not part of the
analyzed source), building a generic raw-realm error from a message. -/
def ErrorCreate (message : JSVal) : RawError :=
  RawError.generic message

/-- The behavior of the untrusted source text under secureIndirectEval:
either it completes, or it throws some secure-realm value. -/
inductive EvalOutcome where
  | ok
  | throws (e : JSVal)
deriving DecidableEq, Repr

/-- What the caller of the returned evaluator observes. -/
inductive EvalResult where
  | ok
  | thrown (err : RawError)
deriving DecidableEq, Repr

/-- Translation of the evaluator returned by createSecureEnvironment
(browser-realm.ts lines 84 to 104). The destructuring on line 92 is outside
the inner try, so a null or undefined thrown value raises the raw realm
TypeError of the evaluator code itself before the sanitization can run; for
any other value, the constructor is resolved through getRawRef and the raw
error is constructed, falling back to ErrorCreate when construction throws.
The environment is returned alongside the result to make the absence of
membrane writes explicit. -/
def evaluate (env : SecureEnvironment) (sr : SecureRealm)
    (outcome : EvalOutcome) : EvalResult × SecureEnvironment :=
  match outcome with
  | EvalOutcome.ok => (EvalResult.ok, env)
  | EvalOutcome.throws e =>
    match e with
    | JSVal.null => (EvalResult.thrown RawError.hostTypeError, env)
    | JSVal.undef => (EvalResult.thrown RawError.hostTypeError, env)
    | _ =>
      let message := sr.messageOf e
      let ctor := sr.ctorOf e
      let rawErrorConstructor := env.getRawRef ctor
      match construct rawErrorConstructor message with
      | Except.ok rawError => (EvalResult.thrown rawError, env)
      | Except.error _ => (EvalResult.thrown (ErrorCreate message), env)

/-- Whether an evaluation result is a throw of an error that the
sanitization path itself built (by construct or ErrorCreate). -/
def isSanitizedThrow : EvalResult → Bool
  | EvalResult.thrown (RawError.constructed _ _) => true
  | EvalResult.thrown (RawError.generic _) => true
  | _ => false

/-- The message carried by a sanitized throw, if any. -/
def sanitizedMessage : EvalResult → Option JSVal
  | EvalResult.thrown (RawError.constructed _ m) => some m
  | EvalResult.thrown (RawError.generic m) => some m
  | _ => none

/-- The raw node of the first membrane registration (the document pair). -/
def BuildResult.docRawTarget (br : BuildResult) : Option JSVal :=
  br.env.registrations.head?.map Registration.rawNode

/-- The raw nodes of the last four membrane registrations, in registration
order: the spine remaps and the final global remap. -/
def BuildResult.rawSpineTargets (br : BuildResult) : List JSVal :=
  ((br.env.registrations.reverse.take 4).map Registration.rawNode).reverse

/-- A fixed sample descriptor used by the concrete worlds below. -/
def descA : Descriptor := ⟨JSVal.str "d"⟩

/-- A concrete raw world: window is object 0 with prototype spine
10, 11, 12; the document is object 2 with prototype 13; the global carries
the four denylisted descriptors plus a TypeError descriptor; the only
defined reflective global is TypeError, whose value is object 1. -/
def wEx : World where
  window := JSVal.obj 0
  document := JSVal.obj 2
  protoOf := fun v =>
    if v = JSVal.obj 0 then JSVal.obj 10
    else if v = JSVal.obj 10 then JSVal.obj 11
    else if v = JSVal.obj 11 then JSVal.obj 12
    else if v = JSVal.obj 2 then JSVal.obj 13
    else JSVal.null
  ownDescriptors := fun v =>
    if v = JSVal.obj 0 then
      [("location", descA), ("EventTarget", descA), ("document", descA),
       ("window", descA), ("TypeError", descA)]
    else []
  getProp := fun v k =>
    if v = JSVal.obj 0 ∧ k = "TypeError" then JSVal.obj 1 else JSVal.undef

/-- A concrete secure realm: window is object 100 with prototype spine
110, 111, 112; the document is object 102; the only defined reflective
global is TypeError, whose value is object 101. -/
def srEx : SecureRealm where
  secureWindow := JSVal.obj 100
  secureDocument := JSVal.obj 102
  protoOf := fun v =>
    if v = JSVal.obj 100 then JSVal.obj 110
    else if v = JSVal.obj 110 then JSVal.obj 111
    else if v = JSVal.obj 111 then JSVal.obj 112
    else JSVal.null
  getProp := fun k => if k = "TypeError" then JSVal.obj 101 else JSVal.undef
  messageOf := fun _ => JSVal.str "boom"
  ctorOf := fun _ => JSVal.obj 101

/-- The module constants captured from the concrete world. -/
def mcEx : ModuleConstants := moduleLoad wEx

/-- The concrete build: createSecureEnvironment over the concrete world and
secure realm with the reflective name list consisting of TypeError. -/
def brEx : BuildResult := createSecureEnvironment ["TypeError"] mcEx wEx srEx []

/-- An empty concrete membrane environment, used by evaluator witnesses. -/
def envEmpty : SecureEnvironment := ⟨JSVal.obj 0, JSVal.obj 100, [], []⟩

/-- Lookup after delete: deleting a name removes exactly that name. -/
theorem lookupDesc_deleteDesc (m : DescMap) (k k2 : String) :
    lookupDesc (deleteDesc m k2) k = if k = k2 then none else lookupDesc m k := by
  induction m with
  | nil => simp [deleteDesc, lookupDesc]
  | cons hd tl ih =>
    obtain ⟨k3, d⟩ := hd
    by_cases h3 : k3 = k2
    · subst h3
      have hdel : deleteDesc ((k3, d) :: tl) k3 = deleteDesc tl k3 := by
        simp [deleteDesc]
      rw [hdel, ih]
      by_cases h : k = k3
      · simp [h]
      · rw [if_neg h, if_neg h]
        simp only [lookupDesc]
        rw [if_neg (fun hh => h hh.symm)]
    · simp only [deleteDesc, if_neg h3]
      by_cases h : k3 = k
      · subst h
        simp [lookupDesc, h3]
      · simp [lookupDesc, h, ih]

/-- Shape of the reflective-names loop: it only appends registrations and
trace events, every appended event is the remap for some listed name taken
verbatim from source line 73, and it never adds a name back to the filtered
descriptor set. -/
theorem foldl_reflectiveStep_shape (w : World) (sr : SecureRealm)
    (mc : ModuleConstants) (names : List String) :
    ∀ (env : SecureEnvironment) (descs : DescMap) (tr : List Event),
    ∃ (regs : List Registration) (descs2 : DescMap) (tr2 : List Event),
      List.foldl (reflectiveStep w sr mc) (env, descs, tr) names =
        ({ env with registrations := env.registrations ++ regs }, descs2, tr ++ tr2) ∧
      (∀ ev ∈ tr2, ∃ key, key ∈ names ∧
        ev = Event.remap (w.getProp mc.rawWindow key) (sr.getProp key)
              (w.ownDescriptors (w.getProp mc.rawWindow key))) ∧
      (∀ k, lookupDesc descs k = none → lookupDesc descs2 k = none) := by
  induction names with
  | nil =>
    intro env descs tr
    exact ⟨[], descs, [], by simp, by simp, fun k h => h⟩
  | cons key names ih =>
    intro env descs tr
    rw [List.foldl_cons]
    by_cases hc : w.getProp mc.rawWindow key ≠ JSVal.undef ∧ sr.getProp key ≠ JSVal.undef
    · have hstep : reflectiveStep w sr mc (env, descs, tr) key =
        (env.remap (w.getProp mc.rawWindow key) (sr.getProp key)
            (w.ownDescriptors (w.getProp mc.rawWindow key)),
         deleteDesc descs key,
         tr ++ [Event.remap (w.getProp mc.rawWindow key) (sr.getProp key)
            (w.ownDescriptors (w.getProp mc.rawWindow key))]) := by
        simp [reflectiveStep, hc]
      rw [hstep]
      obtain ⟨regs, descs2, tr2, heq, hmem, hnone⟩ :=
        ih (env.remap (w.getProp mc.rawWindow key) (sr.getProp key)
              (w.ownDescriptors (w.getProp mc.rawWindow key)))
           (deleteDesc descs key)
           (tr ++ [Event.remap (w.getProp mc.rawWindow key) (sr.getProp key)
              (w.ownDescriptors (w.getProp mc.rawWindow key))])
      refine ⟨⟨w.getProp mc.rawWindow key, sr.getProp key,
               w.ownDescriptors (w.getProp mc.rawWindow key)⟩ :: regs, descs2,
              Event.remap (w.getProp mc.rawWindow key) (sr.getProp key)
                (w.ownDescriptors (w.getProp mc.rawWindow key)) :: tr2, ?_, ?_, ?_⟩
      · rw [heq]
        simp [SecureEnvironment.remap]
      · intro ev hev
        rcases List.mem_cons.mp hev with h | h
        · exact ⟨key, List.mem_cons_self key names, h⟩
        · obtain ⟨key2, hk2, hform⟩ := hmem ev h
          exact ⟨key2, List.mem_cons_of_mem key hk2, hform⟩
      · intro k hk
        apply hnone
        rw [lookupDesc_deleteDesc]
        by_cases h : k = key <;> simp [h, hk]
    · have hstep : reflectiveStep w sr mc (env, descs, tr) key = (env, descs, tr) := by
        simp [reflectiveStep, hc]
      rw [hstep]
      obtain ⟨regs, descs2, tr2, heq, hmem, hnone⟩ := ih env descs tr
      refine ⟨regs, descs2, tr2, heq, ?_, hnone⟩
      intro ev hev
      obtain ⟨key2, hk2, hform⟩ := hmem ev hev
      exact ⟨key2, List.mem_cons_of_mem key hk2, hform⟩

/-- Full shape of createSecureEnvironment: the exact event trace and
registration list it produces, with the reflective-loop contribution
existentially packaged, and the denylisted names absent from the descriptor
set of the final global remap. -/
theorem createSecureEnvironment_shape (names : List String)
    (mc : ModuleConstants) (w : World) (sr : SecureRealm)
    (dm : List (JSVal × JSVal)) :
    ∃ (p : JSVal) (reflRegs : List Registration) (reflEvents : List Event) (D : DescMap),
      (createSecureEnvironment names mc w sr dm).trace =
        [Event.forceEval, Event.detach,
         Event.remap sr.secureDocument mc.rawDocument [],
         Event.setProto sr.secureDocument p] ++ reflEvents ++
        [Event.remap (sr.protoOf (sr.protoOf (sr.protoOf sr.secureWindow)))
           mc.rawEventTargetProto (w.ownDescriptors mc.rawEventTargetProto),
         Event.remap (sr.protoOf (sr.protoOf sr.secureWindow))
           mc.rawWindowPropertiesProto (w.ownDescriptors mc.rawWindowPropertiesProto),
         Event.remap (sr.protoOf sr.secureWindow)
           mc.rawWindowProto (w.ownDescriptors mc.rawWindowProto),
         Event.remap sr.secureWindow mc.rawWindow D] ∧
      (createSecureEnvironment names mc w sr dm).env.registrations =
        ⟨sr.secureDocument, mc.rawDocument, []⟩ :: (reflRegs ++
        [⟨sr.protoOf (sr.protoOf (sr.protoOf sr.secureWindow)),
            mc.rawEventTargetProto, w.ownDescriptors mc.rawEventTargetProto⟩,
         ⟨sr.protoOf (sr.protoOf sr.secureWindow),
            mc.rawWindowPropertiesProto, w.ownDescriptors mc.rawWindowPropertiesProto⟩,
         ⟨sr.protoOf sr.secureWindow, mc.rawWindowProto, w.ownDescriptors mc.rawWindowProto⟩,
         ⟨sr.secureWindow, mc.rawWindow, D⟩]) ∧
      (∀ ev ∈ reflEvents, ∃ key, key ∈ names ∧
        ev = Event.remap (w.getProp mc.rawWindow key) (sr.getProp key)
              (w.ownDescriptors (w.getProp mc.rawWindow key))) ∧
      (∀ k, k ∈ denyList → lookupDesc D k = none) := by
  obtain ⟨regs, descs2, tr2, heq, hmem, hnone⟩ :=
    foldl_reflectiveStep_shape w sr mc names
      ((⟨mc.rawWindow, sr.secureWindow, dm, []⟩ : SecureEnvironment).remap
        sr.secureDocument mc.rawDocument [])
      (deleteDesc (deleteDesc (deleteDesc (deleteDesc
        (w.ownDescriptors mc.rawWindow) "location") "EventTarget") "document") "window")
      []
  refine ⟨(((⟨mc.rawWindow, sr.secureWindow, dm, []⟩ : SecureEnvironment).remap
      sr.secureDocument mc.rawDocument []).getSecureValue (w.protoOf mc.rawDocument)),
    regs, tr2, descs2, ?_, ?_, hmem, ?_⟩
  · show (createSecureEnvironment names mc w sr dm).trace = _
    simp only [createSecureEnvironment]
    rw [heq]
    simp
  · show (createSecureEnvironment names mc w sr dm).env.registrations = _
    simp only [createSecureEnvironment]
    rw [heq]
    simp [SecureEnvironment.remap]
  · intro k hk
    apply hnone
    fin_cases hk <;> simp [lookupDesc_deleteDesc]

/-- Projection helper: the document pair and the spine registrations of a
build, as needed to compare raw-side nodes across builds. -/
theorem rawSpineTargets_eq (names : List String) (mc : ModuleConstants)
    (w : World) (sr : SecureRealm) (dm : List (JSVal × JSVal)) :
    (createSecureEnvironment names mc w sr dm).docRawTarget = some mc.rawDocument ∧
    (createSecureEnvironment names mc w sr dm).rawSpineTargets =
      [mc.rawEventTargetProto, mc.rawWindowPropertiesProto, mc.rawWindowProto, mc.rawWindow] := by
  obtain ⟨p, reflRegs, reflEvents, D, htr, hreg, hmem, hD⟩ :=
    createSecureEnvironment_shape names mc w sr dm
  constructor
  · simp [BuildResult.docRawTarget, hreg]
  · simp [BuildResult.rawSpineTargets, hreg, List.reverse_append]

/-- C1: for a reflective name defined on both realms, the source is claimed
to call remap with the secure value first and the raw value second. The code
at line 73 passes the raw value in the first (secureNode) slot: at the
concrete build, the registration for the name TypeError stores the raw value
(object 1) as its secure node and the secure value (object 101) as its raw
node, and the orientation the claim describes is never registered. -/
theorem reflective_remap_argument_order_swapped :
    (Registration.mk (wEx.getProp wEx.window "TypeError") (srEx.getProp "TypeError")
       (wEx.ownDescriptors (wEx.getProp wEx.window "TypeError"))
       ∈ brEx.env.registrations) ∧
    (Registration.mk (srEx.getProp "TypeError") (wEx.getProp wEx.window "TypeError")
       (wEx.ownDescriptors (wEx.getProp wEx.window "TypeError"))
       ∉ brEx.env.registrations) := by decide

/-- C2: the claim getRawRef(secureGlobal[name]) = rawGlobal[name] fails on
the code because of the swapped remap arguments at line 73: at the concrete
build, both realms define TypeError, yet getRawRef of the secure value
returns undefined rather than the raw value, while the reverse direction
(raw value to secure value) is what actually got registered. -/
theorem getRawRef_of_secure_reflective_value_undefined :
    srEx.getProp "TypeError" ≠ JSVal.undef ∧
    wEx.getProp wEx.window "TypeError" ≠ JSVal.undef ∧
    brEx.env.getRawRef (srEx.getProp "TypeError") = JSVal.undef ∧
    brEx.env.getRawRef (srEx.getProp "TypeError") ≠ wEx.getProp wEx.window "TypeError" ∧
    brEx.env.getRawRef (wEx.getProp wEx.window "TypeError") = srEx.getProp "TypeError" := by
  decide

/-- C3 counterexample: when the sandboxed source throws the primitive null,
the value the caller observes is the TypeError raised by the destructuring
in the evaluator itself, not an error built by the sanitization path, so the
claim that the thrown value is always the newly constructed raw-realm error
fails at this input. -/
theorem null_throw_not_sanitized_counterexample :
    isSanitizedThrow (evaluate brEx.env srEx (EvalOutcome.throws JSVal.null)).1 = false := by
  decide

/-- C3 amended: for any throw of a value other than null and undefined, the
evaluator always throws an error built by its own sanitization path, the
carried message is exactly the thrown value message, and the error is either
constructed from the membrane-resolved constructor or is the generic
fallback with the same message. -/
theorem evaluator_sanitizes_defined_throws (env : SecureEnvironment)
    (sr : SecureRealm) (e : JSVal)
    (h1 : e ≠ JSVal.null) (h2 : e ≠ JSVal.undef) :
    isSanitizedThrow (evaluate env sr (EvalOutcome.throws e)).1 = true ∧
    sanitizedMessage (evaluate env sr (EvalOutcome.throws e)).1 = some (sr.messageOf e) ∧
    ((evaluate env sr (EvalOutcome.throws e)).1 =
        EvalResult.thrown (RawError.constructed (env.getRawRef (sr.ctorOf e)) (sr.messageOf e)) ∨
     (evaluate env sr (EvalOutcome.throws e)).1 =
        EvalResult.thrown (RawError.generic (sr.messageOf e))) := by
  cases e with
  | null => exact absurd rfl h1
  | undef => exact absurd rfl h2
  | obj id =>
    cases hr : env.getRawRef (sr.ctorOf (JSVal.obj id)) <;>
      simp [evaluate, construct, ErrorCreate, isSanitizedThrow, sanitizedMessage, hr]
  | str s =>
    cases hr : env.getRawRef (sr.ctorOf (JSVal.str s)) <;>
      simp [evaluate, construct, ErrorCreate, isSanitizedThrow, sanitizedMessage, hr]

/-- Witness for the amended C3 theorem at a concrete input. -/
theorem evaluator_sanitizes_defined_throws_witness :
    isSanitizedThrow (evaluate brEx.env srEx (EvalOutcome.throws (JSVal.obj 7))).1 = true :=
  (evaluator_sanitizes_defined_throws brEx.env srEx (JSVal.obj 7)
    (by decide) (by decide)).1

/-- C4: the four denylisted names are deleted from the captured raw global
descriptor set before any registration, so the descriptor set passed to the
final global-object remap (the last registration, pairing the secure window
with the raw window) holds none of them. -/
theorem global_remap_descriptors_exclude_denylist (names : List String)
    (mc : ModuleConstants) (w : World) (sr : SecureRealm)
    (dm : List (JSVal × JSVal)) :
    ∃ (pre : List Registration) (D : DescMap),
      (createSecureEnvironment names mc w sr dm).env.registrations =
        pre ++ [⟨sr.secureWindow, mc.rawWindow, D⟩] ∧
      denyList.all (fun k => (lookupDesc D k).isNone) = true := by
  obtain ⟨p, reflRegs, reflEvents, D, htr, hreg, hmem, hD⟩ :=
    createSecureEnvironment_shape names mc w sr dm
  refine ⟨⟨sr.secureDocument, mc.rawDocument, []⟩ :: (reflRegs ++
    [⟨sr.protoOf (sr.protoOf (sr.protoOf sr.secureWindow)),
        mc.rawEventTargetProto, w.ownDescriptors mc.rawEventTargetProto⟩,
     ⟨sr.protoOf (sr.protoOf sr.secureWindow),
        mc.rawWindowPropertiesProto, w.ownDescriptors mc.rawWindowPropertiesProto⟩,
     ⟨sr.protoOf sr.secureWindow, mc.rawWindowProto, w.ownDescriptors mc.rawWindowProto⟩]),
    D, ?_, ?_⟩
  · rw [hreg]
    simp
  · rw [List.all_eq_true]
    intro k hk
    simp [hD k hk]

/-- C5: the construction registers the document pair first with an empty
descriptor set, then fixes the document prototype, then performs the
reflective-name remaps, then the three spine nodes from the most deeply
nested (EventTarget prototype) outward, and the global object last. -/
theorem registration_order_trace (names : List String) (mc : ModuleConstants)
    (w : World) (sr : SecureRealm) (dm : List (JSVal × JSVal)) :
    ∃ (p : JSVal) (reflEvents : List Event) (D : DescMap),
      (createSecureEnvironment names mc w sr dm).trace =
        [Event.forceEval, Event.detach,
         Event.remap sr.secureDocument mc.rawDocument [],
         Event.setProto sr.secureDocument p] ++ reflEvents ++
        [Event.remap (sr.protoOf (sr.protoOf (sr.protoOf sr.secureWindow)))
           mc.rawEventTargetProto (w.ownDescriptors mc.rawEventTargetProto),
         Event.remap (sr.protoOf (sr.protoOf sr.secureWindow))
           mc.rawWindowPropertiesProto (w.ownDescriptors mc.rawWindowPropertiesProto),
         Event.remap (sr.protoOf sr.secureWindow)
           mc.rawWindowProto (w.ownDescriptors mc.rawWindowProto),
         Event.remap sr.secureWindow mc.rawWindow D] ∧
      (∀ ev ∈ reflEvents, ∃ key, key ∈ names ∧
        ev = Event.remap (w.getProp mc.rawWindow key) (sr.getProp key)
              (w.ownDescriptors (w.getProp mc.rawWindow key))) := by
  obtain ⟨p, reflRegs, reflEvents, D, htr, hreg, hmem, hD⟩ :=
    createSecureEnvironment_shape names mc w sr dm
  exact ⟨p, reflEvents, D, htr, hmem⟩

/-- C6: when the constructor of a thrown (non-null, non-undefined) value has
no registered counterpart in the membrane, the evaluator throws the generic
raw error carrying exactly the thrown value message. -/
theorem unmapped_constructor_falls_back_generic (env : SecureEnvironment)
    (sr : SecureRealm) (e : JSVal)
    (h1 : e ≠ JSVal.null) (h2 : e ≠ JSVal.undef)
    (h3 : env.registrations.find? (fun r => r.secureNode == sr.ctorOf e) = none) :
    (evaluate env sr (EvalOutcome.throws e)).1 =
      EvalResult.thrown (RawError.generic (sr.messageOf e)) := by
  have hraw : env.getRawRef (sr.ctorOf e) = JSVal.undef := by
    simp [SecureEnvironment.getRawRef, h3]
  cases e with
  | null => exact absurd rfl h1
  | undef => exact absurd rfl h2
  | obj id => simp [evaluate, construct, ErrorCreate, hraw]
  | str s => simp [evaluate, construct, ErrorCreate, hraw]

/-- Witness for the C6 theorem at a concrete input. -/
theorem unmapped_constructor_falls_back_generic_witness :
    (evaluate envEmpty srEx (EvalOutcome.throws (JSVal.obj 7))).1 =
      EvalResult.thrown (RawError.generic (srEx.messageOf (JSVal.obj 7))) :=
  unmapped_constructor_falls_back_generic envEmpty srEx (JSVal.obj 7)
    (by decide) (by decide) (by decide)

/-- C7: the trivial forced evaluation happens strictly before the container
detach, and every membrane registration happens strictly after the detach:
the first two construction events are forceEval then detach, and every remap
event sits at an index of at least two. -/
theorem force_eval_then_detach_then_remaps (names : List String)
    (mc : ModuleConstants) (w : World) (sr : SecureRealm)
    (dm : List (JSVal × JSVal)) :
    (createSecureEnvironment names mc w sr dm).trace.take 2 =
      [Event.forceEval, Event.detach] ∧
    ∀ (i : Nat) (s r : JSVal) (d : DescMap),
      (createSecureEnvironment names mc w sr dm).trace.get? i =
        some (Event.remap s r d) → 2 ≤ i := by
  obtain ⟨p, reflRegs, reflEvents, D, htr, hreg, hmem, hD⟩ :=
    createSecureEnvironment_shape names mc w sr dm
  constructor
  · rw [htr]
    rfl
  · intro i s r d hi
    match i with
    | 0 => rw [htr] at hi; simp at hi
    | 1 => rw [htr] at hi; simp at hi
    | n + 2 => omega

/-- C8: calling the evaluator leaves the membrane untouched: for every
outcome of the sandboxed source, the environment component returned by
evaluate is exactly the environment it was given, so the registration
tables after any evaluation equal their state after construction. -/
theorem evaluate_preserves_membrane_state (env : SecureEnvironment)
    (sr : SecureRealm) (outcome : EvalOutcome) :
    (evaluate env sr outcome).2 = env := by
  cases outcome with
  | ok => rfl
  | throws e =>
    cases e with
    | null => rfl
    | undef => rfl
    | obj id =>
      cases hc : construct (env.getRawRef (sr.ctorOf (JSVal.obj id)))
          (sr.messageOf (JSVal.obj id)) with
      | ok r => simp [evaluate, hc]
      | error u => simp [evaluate, hc]
    | str s =>
      cases hc : construct (env.getRawRef (sr.ctorOf (JSVal.str s)))
          (sr.messageOf (JSVal.str s)) with
      | ok r => simp [evaluate, hc]
      | error u => simp [evaluate, hc]

/-- C9: a sandboxed throw of null or undefined escapes the sanitization:
the destructuring of message and constructor in the evaluator raises the
raw-realm TypeError of the evaluator code itself before the fallback branch
can run, so the caller observes that TypeError and not a sanitized error. -/
theorem null_or_undefined_throw_escapes_sanitizer (env : SecureEnvironment)
    (sr : SecureRealm) :
    (evaluate env sr (EvalOutcome.throws JSVal.null)).1 =
      EvalResult.thrown RawError.hostTypeError ∧
    (evaluate env sr (EvalOutcome.throws JSVal.undef)).1 =
      EvalResult.thrown RawError.hostTypeError ∧
    isSanitizedThrow (EvalResult.thrown RawError.hostTypeError) = false :=
  ⟨rfl, rfl, rfl⟩

/-- C10: the raw window, its three-level prototype spine and the raw
document are captured once at module load; every build driven from those
constants registers exactly those raw-side nodes for the document pair and
the spine, independently of the live world passed at call time, so two
builds over mutated worlds share identical raw-side nodes. -/
theorem raw_nodes_captured_at_module_load (w0 : World) (names : List String)
    (w1 w2 : World) (sr1 sr2 : SecureRealm)
    (dm1 dm2 : List (JSVal × JSVal)) :
    (createSecureEnvironment names (moduleLoad w0) w1 sr1 dm1).docRawTarget =
      some w0.document ∧
    (createSecureEnvironment names (moduleLoad w0) w2 sr2 dm2).docRawTarget =
      (createSecureEnvironment names (moduleLoad w0) w1 sr1 dm1).docRawTarget ∧
    (createSecureEnvironment names (moduleLoad w0) w1 sr1 dm1).rawSpineTargets =
      [w0.protoOf (w0.protoOf (w0.protoOf w0.window)),
       w0.protoOf (w0.protoOf w0.window),
       w0.protoOf w0.window,
       w0.window] ∧
    (createSecureEnvironment names (moduleLoad w0) w2 sr2 dm2).rawSpineTargets =
      (createSecureEnvironment names (moduleLoad w0) w1 sr1 dm1).rawSpineTargets := by
  obtain ⟨hd1, hs1⟩ := rawSpineTargets_eq names (moduleLoad w0) w1 sr1 dm1
  obtain ⟨hd2, hs2⟩ := rawSpineTargets_eq names (moduleLoad w0) w2 sr2 dm2
  refine ⟨?_, ?_, ?_, ?_⟩
  · rw [hd1]; simp [moduleLoad]
  · rw [hd1, hd2]
  · rw [hs1]; simp [moduleLoad]
  · rw [hs1, hs2]

end SecureJS
